import Mathlib

/-!
Verification of the interactive controllers of the Mueez21.github.io
portfolio site.  The definitions below are shallow embeddings of the two
script variants in the repository (`script_new.js` and
`script_topnav_backup.js`): DOM state touched by each handler is an
explicit record, each event handler is a state-transition function, and
browser-supplied behaviour (default Tab movement, IntersectionObserver
delivery, localStorage) is modelled by explicit state fields.
-/

/- ==================== Contact form: email regular expression ========== -/

/-- Character class `[^\s@]` of the email regex in both script variants:
any character that is neither whitespace nor the at sign. -/
def emailClassChar (c : Char) : Bool :=
  !c.isWhitespace && c != '@'

/-- Embedding of the anchored regex `^[^\s@]+@[^\s@]+\.[^\s@]+$`
(`script_new.js` line 223, `script_topnav_backup.js` line 266).
The string matches iff there are positions `i < j` with the at sign at
`i`, a dot at `j`, nonempty stretches before `i`, between `i` and `j`,
and after `j`, and every position other than `i` drawn from `[^\s@]`
(the dot at `j` is itself in that class). -/
def emailTest (l : List Char) : Bool :=
  (List.range l.length).any fun i =>
    (List.range l.length).any fun j =>
      decide (0 < i) && decide (i + 1 < j) && decide (j + 1 < l.length) &&
      (l.getD i ' ' == '@') && (l.getD j ' ' == '.') &&
      ((List.range l.length).all fun k =>
        k == i || emailClassChar (l.getD k ' '))

/- ==================== encodeURIComponent ============================== -/

/-- Characters that `encodeURIComponent` leaves unescaped:
`A-Z a-z 0-9 - _ . ! ~ * ' ( )`. -/
def isUnreservedURI (c : Char) : Bool :=
  (decide ('A' ≤ c) && decide (c ≤ 'Z')) ||
  (decide ('a' ≤ c) && decide (c ≤ 'z')) ||
  (decide ('0' ≤ c) && decide (c ≤ '9')) ||
  c == '-' || c == '_' || c == '.' || c == '!' || c == '~' ||
  c == '*' || c == '\'' || c == '(' || c == ')'

/-- Uppercase hexadecimal digit for a value below 16. -/
def hexDigitChar (k : Nat) : Char :=
  if k < 10 then Char.ofNat (48 + k) else Char.ofNat (55 + k)

/-- UTF-8 byte sequence of a character, as used by `encodeURIComponent`
when percent-escaping. -/
def utf8Bytes (c : Char) : List Nat :=
  let n := c.toNat
  if n < 128 then [n]
  else if n < 2048 then [192 + n / 64, 128 + n % 64]
  else if n < 65536 then
    [224 + n / 4096, 128 + (n / 64) % 64, 128 + n % 64]
  else
    [240 + n / 262144, 128 + (n / 4096) % 64, 128 + (n / 64) % 64,
     128 + n % 64]

/-- Percent-escape of one byte: `%XY` with uppercase hex digits. -/
def percentByte (b : Nat) : List Char :=
  ['%', hexDigitChar (b / 16), hexDigitChar (b % 16)]

/-- `encodeURIComponent` on a single character. -/
def encChar (c : Char) : List Char :=
  if isUnreservedURI c then [c]
  else (utf8Bytes c).foldr (fun b acc => percentByte b ++ acc) []

/-- `encodeURIComponent` on a character list, character by character. -/
def encodeList : List Char → List Char
  | [] => []
  | c :: cs => encChar c ++ encodeList cs

/-- Embedding of JavaScript `encodeURIComponent` on strings. -/
def encodeURIComponent (s : String) : String :=
  String.mk (encodeList s.data)

/- ==================== Contact form controllers ======================== -/

/-- Embedding of JavaScript `String.prototype.trim`: strip leading and
trailing whitespace. -/
def jsTrim (s : String) : String :=
  String.mk
    (((s.data.dropWhile Char.isWhitespace).reverse.dropWhile
        Char.isWhitespace).reverse)

/-- Kind of transient notice produced by `showAlert` in
`script_topnav_backup.js` (`'success'` or `'error'`). -/
inductive AlertKind : Type
  | success : AlertKind
  | error : AlertKind
deriving DecidableEq

/-- Observable outcome of one submit-handler run of the backup contact
form controller: whether the browser default submission was prevented,
which transient notice was shown, which mail deep link (if any) was
assigned to `window.location.href`, and whether the form was reset. -/
structure FormOutcome : Type where
  prevented : Bool
  alert : Option (String × AlertKind)
  mailto : Option String
  didReset : Bool
deriving DecidableEq

/-- The mailto deep link built by `initContactForm`
(`script_topnav_backup.js` lines 283-287) from the trimmed field
values. -/
def mailtoLink (name email message : String) : String :=
  "mailto:mueezmejbah284@gmail.com?subject=" ++
    encodeURIComponent ("Portfolio Contact from " ++ name) ++
    "&body=" ++
    encodeURIComponent
      ("Name: " ++ name ++ "\nEmail: " ++ email ++
        "\n\nMessage:\n" ++ message)

/-- Submit handler of `initContactForm` in `script_topnav_backup.js`
(lines 248-297).  `e.preventDefault()` runs unconditionally; the three
checks run in order name, email, message, each overwriting the error
message, so a later failing check's message wins; on success the
handler assigns the mailto link, shows the success notice and resets
the form. -/
def initContactFormSubmit (rawName rawEmail rawMessage : String) :
    FormOutcome :=
  let name := jsTrim rawName
  let email := jsTrim rawEmail
  let message := jsTrim rawMessage
  let nameFails := name == "" || decide (name.length < 2)
  let emailFails := email == "" || !emailTest email.data
  let messageFails := message == "" || decide (message.length < 10)
  let isValid := !nameFails && !emailFails && !messageFails
  if isValid then
    { prevented := true
      alert := some
        ("Thank you for your message! Your email client should open shortly.",
          AlertKind.success)
      mailto := some (mailtoLink name email message)
      didReset := true }
  else
    { prevented := true
      alert := some
        (if messageFails then
          "Please enter a message (at least 10 characters)."
        else if emailFails then
          "Please enter a valid email address."
        else
          "Please enter a valid name (at least 2 characters).",
          AlertKind.error)
      mailto := none
      didReset := false }

/-- Submit handler of the `script_new.js` contact form (lines 211-229):
returns whether `e.preventDefault()` was called (`true` blocks the
submission) together with the alert text shown, if any.  A run that
returns `(false, none)` lets the browser submit the form normally. -/
def contactFormNewSubmit (rawName rawEmail rawMessage : String) :
    Bool × Option String :=
  let name := jsTrim rawName
  let email := jsTrim rawEmail
  let message := jsTrim rawMessage
  if name == "" || email == "" || message == "" then
    (true, some "Please fill in all fields before submitting.")
  else if !emailTest email.data then
    (true, some "Please enter a valid email address.")
  else
    (false, none)

/- ==================== Project modal controller ======================== -/

/-- DOM and script state touched by the project-modal controller of
`script_topnav_backup.js`: the set of panels carrying the `active`
class, the set of panels with `aria-hidden="false"`, the globals
`activeModal` and `lastFocusedElement`, whether `document.body` has
`overflow: hidden`, and `document.activeElement`. -/
structure ModalState : Type where
  openPanels : List String
  ariaVisible : List String
  activeModal : Option String
  lastFocused : Option String
  overflowHidden : Bool
  focus : String
deriving DecidableEq

/-- Environment model: the `.modal-close` button inside panel `m`
(focused by `openModal` via its timeout). -/
def closeButtonOf (m : String) : String :=
  m ++ "/.modal-close"

/-- Set insertion in the classList model: `classList.add` is a no-op on
an already present token. -/
def classAdd (m : String) (l : List String) : List String :=
  if m ∈ l then l else m :: l

/-- `classList.remove` removes the token entirely. -/
def classRemove (m : String) (l : List String) : List String :=
  l.filter fun p => p != m

/-- `openModal` (`script_topnav_backup.js` lines 472-494): remember the
focused element, add the `active` class, clear `aria-hidden`, lock body
scroll, point `activeModal` at the panel and move focus to the panel's
close button.  It does not touch any other panel. -/
def openModal (m : String) (s : ModalState) : ModalState :=
  { openPanels := classAdd m s.openPanels
    ariaVisible := classAdd m s.ariaVisible
    activeModal := some m
    lastFocused := some s.focus
    overflowHidden := true
    focus := closeButtonOf m }

/-- `closeModal` (`script_topnav_backup.js` lines 509-525): remove the
`active` class, set `aria-hidden="true"`, unlock body scroll, clear
`activeModal`, and focus the remembered element (clearing it). -/
def closeModal (m : String) (s : ModalState) : ModalState :=
  { openPanels := classRemove m s.openPanels
    ariaVisible := classRemove m s.ariaVisible
    activeModal := none
    lastFocused := none
    overflowHidden := false
    focus := match s.lastFocused with
      | some f => f
      | none => s.focus }

/-- `closeCurrentModal` (`script_topnav_backup.js` lines 499-503):
closes `activeModal` when set, otherwise does nothing. -/
def closeCurrentModal (s : ModalState) : ModalState :=
  match s.activeModal with
  | some m => closeModal m s
  | none => s

/-- Page-load state: no panel open, no reference stored, focus on some
trigger element of the page. -/
def modalInit : ModalState :=
  { openPanels := []
    ariaVisible := []
    activeModal := none
    lastFocused := none
    overflowHidden := false
    focus := "trigger0" }

/- ==================== Focus trap ====================================== -/

/-- The `handleFocusTrap` keydown listener installed by `trapFocus`
(`script_topnav_backup.js` lines 531-568), restricted to Tab presses.
`n` is the length of the focusable-descendant list computed at
installation time and `focusIdx` the index of `document.activeElement`
in that list.  `some j` means the handler called `preventDefault` and
refocused index `j`; `none` means it let the browser act. -/
def handleFocusTrap (n : Nat) (shift : Bool) (focusIdx : Nat) :
    Option Nat :=
  if n = 0 then none
  else if shift then
    if focusIdx = 0 then some (n - 1) else none
  else
    if focusIdx = n - 1 then some 0 else none

/-- Environment model of the browser's default Tab movement inside the
dialog, whose focusable descendants are contiguous in document tab
order: forward Tab moves to the next index, Shift+Tab to the previous
one; `none` means focus would leave the dialog. -/
def browserTab (n : Nat) (shift : Bool) (focusIdx : Nat) : Option Nat :=
  if shift then
    if focusIdx = 0 then none else some (focusIdx - 1)
  else
    if focusIdx + 1 < n then some (focusIdx + 1) else none

/-- Combined effect of one Tab keypress while the trap is installed:
the listener's redirect wins when it fires, otherwise the default
movement happens. -/
def trapStep (n : Nat) (shift : Bool) (focusIdx : Nat) : Option Nat :=
  match handleFocusTrap n shift focusIdx with
  | some j => some j
  | none => browserTab n shift focusIdx

/- ==================== Scroll-synced navigation ======================== -/

/-- A content section as seen by `updateActiveNavOnScroll`: its `id`
attribute, `offsetTop` and `offsetHeight` in pixels. -/
structure PageSection : Type where
  id : String
  offsetTop : Int
  offsetHeight : Int
deriving DecidableEq

/-- The containment test of `updateActiveNavOnScroll` (`script_new.js`
lines 99-105): the reference point `scrollY + innerHeight / 3` lies in
`[offsetTop, offsetTop + offsetHeight)`.  Both sides of each comparison
are scaled by 3 so that the real-valued comparison is carried out
exactly on integers. -/
def sectionContainsRef (scrollY innerHeight : Int) (s : PageSection) :
    Bool :=
  decide (3 * s.offsetTop ≤ 3 * scrollY + innerHeight) &&
  decide (3 * scrollY + innerHeight < 3 * (s.offsetTop + s.offsetHeight))

/-- The `currentSection` accumulator loop of `updateActiveNavOnScroll`:
starts at `''` and is overwritten by the id of every section containing
the reference point, so the last such section wins. -/
def currentSectionId (sections : List PageSection)
    (scrollY innerHeight : Int) : String :=
  sections.foldl
    (fun acc s =>
      if sectionContainsRef scrollY innerHeight s then s.id else acc)
    ""

/-- The nav-item pass of `updateActiveNavOnScroll` (`script_new.js`
lines 108-114): every item first loses `active`, then exactly those
whose `href` equals `'#' + currentSection` regain it.  The result is
the list of hrefs of the items left carrying `active`. -/
def updateActiveNavOnScroll (sections : List PageSection)
    (navItems : List String) (scrollY innerHeight : Int) : List String :=
  navItems.filter fun href =>
    href == "#" ++ currentSectionId sections scrollY innerHeight

/- ==================== Mobile menu (backup variant) ==================== -/

/-- DOM state of `initMobileNav` (`script_topnav_backup.js` lines
22-63): `active` class on the nav menu, `active` class on the hamburger
control (which drives the icon glyph through CSS), the hamburger's
`aria-expanded` attribute and the body scroll lock. -/
structure MenuState : Type where
  menuActive : Bool
  hamburgerActive : Bool
  ariaExpanded : Bool
  overflowHidden : Bool
deriving DecidableEq

/-- Events handled by `initMobileNav`.  `outsideClick` stands for a
document click whose target is inside neither the hamburger nor the
menu (clicks inside either are already absorbed by the guard on the
document listener). -/
inductive MenuEvent : Type
  | toggleClick : MenuEvent
  | navLinkClick : MenuEvent
  | outsideClick : MenuEvent
deriving DecidableEq

/-- Transition function of `initMobileNav`: the hamburger click reads
`isOpen` before toggling both `active` classes and writes
`aria-expanded = !isOpen` and the matching scroll lock; nav-link and
outside clicks force everything closed. -/
def menuStep (s : MenuState) (e : MenuEvent) : MenuState :=
  match e with
  | MenuEvent.toggleClick =>
    let isOpen := s.menuActive
    { menuActive := !s.menuActive
      hamburgerActive := !s.hamburgerActive
      ariaExpanded := !isOpen
      overflowHidden := !isOpen }
  | MenuEvent.navLinkClick =>
    { menuActive := false, hamburgerActive := false
      ariaExpanded := false, overflowHidden := false }
  | MenuEvent.outsideClick =>
    { menuActive := false, hamburgerActive := false
      ariaExpanded := false, overflowHidden := false }

/-- Page-load menu state: neither element carries `active` and the
markup ships `aria-expanded="false"`. -/
def menuInit : MenuState :=
  { menuActive := false, hamburgerActive := false
    ariaExpanded := false, overflowHidden := false }

/-- Consistency of the four menu facets: the hamburger `active` class
(icon glyph) and `aria-expanded` both reflect the open state. -/
def menuConsistent (s : MenuState) : Bool :=
  (s.hamburgerActive == s.menuActive) && (s.ariaExpanded == s.menuActive)

/- ==================== Sidebar menu (script_new variant) =============== -/

/-- Icon glyph of the `script_new.js` mobile toggle: `fa-bars` when
closed, `fa-times` when open. -/
inductive Glyph : Type
  | bars : Glyph
  | times : Glyph
deriving DecidableEq

/-- DOM state of the `script_new.js` sidebar menu: the sidebar `active`
class and the toggle icon's glyph class. -/
structure SidebarState : Type where
  sidebarActive : Bool
  icon : Glyph
deriving DecidableEq

/-- Events of the `script_new.js` sidebar controller.  `docClick`
carries whether the viewport is mobile-sized (`innerWidth <= 992`) and
whether the click target sits inside the sidebar or the toggle;
`navLinkClick` carries the viewport test and whether the link's target
section exists. -/
inductive SidebarEvent : Type
  | toggleClick : SidebarEvent
  | docClick : Bool → Bool → Bool → SidebarEvent
  | navLinkClick : Bool → Bool → SidebarEvent
deriving DecidableEq

/-- Transition function of the `script_new.js` sidebar handlers (lines
58-86 and 137-167): the toggle flips the `active` class and then sets
the glyph from the new state; a qualifying outside click or a nav-link
click on mobile with the menu open closes it and restores `fa-bars`. -/
def sidebarStep (s : SidebarState) (e : SidebarEvent) : SidebarState :=
  match e with
  | SidebarEvent.toggleClick =>
    let active := !s.sidebarActive
    { sidebarActive := active
      icon := if active then Glyph.times else Glyph.bars }
  | SidebarEvent.docClick isMobile insideSidebar insideToggle =>
    if isMobile && !insideSidebar && !insideToggle && s.sidebarActive then
      { sidebarActive := false, icon := Glyph.bars }
    else s
  | SidebarEvent.navLinkClick isMobile targetExists =>
    if targetExists && isMobile && s.sidebarActive then
      { sidebarActive := false, icon := Glyph.bars }
    else s

/-- Page-load sidebar state: closed, hamburger glyph. -/
def sidebarInit : SidebarState :=
  { sidebarActive := false, icon := Glyph.bars }

/-- Consistency of the sidebar facets: the icon shows the close glyph
exactly when the sidebar is open. -/
def sidebarConsistent (s : SidebarState) : Bool :=
  (s.icon == Glyph.times) == s.sidebarActive

/- ==================== Reveal-on-scroll observer ======================= -/

/-- State of the fade-in IntersectionObserver of `script_new.js` (lines
178-185): the set of still-observed elements and the set of elements
carrying the revealed class (`fade-in-up`). -/
structure RevealState : Type where
  observed : List String
  revealed : List String
deriving DecidableEq

/-- Processing of one observer entry `(target, isIntersecting)`: an
intersecting entry gets the revealed class added (set insertion) and is
immediately unobserved; a non-intersecting entry is ignored. -/
def revealStepEntry (s : RevealState) (entry : String × Bool) :
    RevealState :=
  if entry.2 then
    { observed := s.observed.filter fun x => x != entry.1
      revealed := classAdd entry.1 s.revealed }
  else s

/-- One observer callback invocation processes its entries in order. -/
def revealCallback (s : RevealState) (entries : List (String × Bool)) :
    RevealState :=
  entries.foldl revealStepEntry s

/- ==================== Certificate modal =============================== -/

/-- The static certificate-to-asset mapping (`script_new.js` lines
5-8). -/
def certificateImages (certificateId : String) : Option String :=
  if certificateId == "matlab-certificate" then some "Edge Course.jpg"
  else if certificateId == "research-certificate" then
    some "Certificate of Appreciation.png"
  else none

/-- DOM state touched by the certificate modal: the modal's `active`
class, the body scroll lock, and the displayed image's `src` and `alt`
attributes. -/
structure CertState : Type where
  modalActive : Bool
  overflowHidden : Bool
  imgSrc : String
  imgAlt : String
deriving DecidableEq

/-- JavaScript `String.prototype.replace` with a string pattern
replaces only the first occurrence. -/
def replaceFirstChar (l : List Char) (a b : Char) : List Char :=
  match l with
  | [] => []
  | c :: cs => if c = a then b :: cs else c :: replaceFirstChar cs a b

/-- `openCertificateModal` (`script_new.js` lines 10-21): looks the id
up in the static mapping; on a hit it sets the image source and alt
text, marks the modal active and locks body scroll; on a miss it does
nothing at all. -/
def openCertificateModal (certificateId : String) (s : CertState) :
    CertState :=
  match certificateImages certificateId with
  | some imagePath =>
    { modalActive := true
      overflowHidden := true
      imgSrc := imagePath
      imgAlt :=
        (String.mk (replaceFirstChar certificateId.data '-' ' ')).toUpper }
  | none => s

/- ==================== Theme persistence =============================== -/

/-- Persistent and document-level theme state: the localStorage value
under `'portfolio-theme'` (`none` when the key is absent) and the
`data-theme` attribute of the document element. -/
structure ThemeState : Type where
  storage : Option String
  docTheme : Option String
deriving DecidableEq

/-- `setTheme` (`script_topnav_backup.js` lines 616-619): writes the
document attribute and persists the value. -/
def setTheme (theme : String) (s : ThemeState) : ThemeState :=
  { docTheme := some theme, storage := some theme }

/-- `initThemePersistence` (`script_topnav_backup.js` lines 577-584),
run at every page load: reads the stored value, falling back to
`'dark'` when the key is absent or the stored string is empty (the
JavaScript `||` default), and applies it to the document. -/
def initThemePersistence (s : ThemeState) : ThemeState :=
  { s with
    docTheme := some
      (match s.storage with
        | some t => if t == "" then "dark" else t
        | none => "dark") }

/-- `getCurrentTheme` (`script_topnav_backup.js` lines 608-610): reads
the document attribute, defaulting to `'dark'`. -/
def getCurrentTheme (s : ThemeState) : String :=
  match s.docTheme with
  | some t => t
  | none => "dark"

/- ==================== Helper lemmas =================================== -/

theorem classAdd_mem_mono {x m : String} {l : List String} (h : x ∈ l) :
    x ∈ classAdd m l := by
  unfold classAdd
  split
  · exact h
  · exact List.mem_cons_of_mem _ h

theorem classAdd_self_mem (m : String) (l : List String) :
    m ∈ classAdd m l := by
  unfold classAdd
  split
  · assumption
  · exact List.mem_cons_self _ _

theorem classRemove_not_mem (m : String) (l : List String) :
    m ∉ classRemove m l := by
  intro h
  have hp := List.of_mem_filter h
  simp at hp

/- ==================== Claim C10 ======================================= -/

/-- Claim C10: invoking the certificate open operation with an
identifier absent from the static mapping changes nothing: the modal
state, scroll lock, image source and alt text are all untouched. -/
theorem cert_unknown_id_noop (certificateId : String) (s : CertState)
    (h : certificateImages certificateId = none) :
    openCertificateModal certificateId s = s := by
  simp [openCertificateModal, h]

/-- Witness for claim C10 at the concrete identifier `unknown-cert`. -/
theorem cert_unknown_id_noop_w :
    certificateImages "unknown-cert" = none ∧
    openCertificateModal "unknown-cert"
        { modalActive := false, overflowHidden := false,
          imgSrc := "", imgAlt := "" } =
      { modalActive := false, overflowHidden := false,
        imgSrc := "", imgAlt := "" } :=
  ⟨by decide, cert_unknown_id_noop "unknown-cert" _ (by decide)⟩

/- ==================== Claim C7 ======================================== -/

/-- Claim C7: a fresh storage read after `setTheme v` yields `v` for
both theme values, a fresh read with the key absent yields `dark`, and
`setTheme` is idempotent. -/
theorem theme_persistence_roundtrip (v : String) (s : ThemeState)
    (hv : v = "dark" ∨ v = "light") :
    getCurrentTheme (initThemePersistence (setTheme v s)) = v ∧
    (s.storage = none → getCurrentTheme (initThemePersistence s) = "dark") ∧
    setTheme v (setTheme v s) = setTheme v s := by
  refine ⟨?_, ?_, rfl⟩
  · rcases hv with h | h <;> subst h <;> rfl
  · intro h
    simp [initThemePersistence, getCurrentTheme, h]

/-- Witness for claim C7 at the concrete value `light` and the fresh
(never persisted) storage state. -/
theorem theme_persistence_roundtrip_w :
    getCurrentTheme (initThemePersistence
        (setTheme "light" { storage := none, docTheme := none })) = "light" ∧
    ((ThemeState.mk none none).storage = none →
      getCurrentTheme (initThemePersistence
        { storage := none, docTheme := none }) = "dark") ∧
    setTheme "light" (setTheme "light" { storage := none, docTheme := none }) =
      setTheme "light" { storage := none, docTheme := none } :=
  theme_persistence_roundtrip "light" _ (Or.inr rfl)

/- ==================== Claim C1 ======================================== -/

/-- Claim C1 counterexample: opening `project-modal-b` while
`project-modal-a` is open neither closes the first panel nor rejects
the open: afterwards the first panel is still marked open while the
`activeModal` reference no longer points to it, so two panels are
marked open at once. -/
theorem modal_single_open_cex :
    "project-modal-a" ∈
      (openModal "project-modal-b"
        (openModal "project-modal-a" modalInit)).openPanels ∧
    "project-modal-b" ∈
      (openModal "project-modal-b"
        (openModal "project-modal-a" modalInit)).openPanels ∧
    (openModal "project-modal-b"
        (openModal "project-modal-a" modalInit)).activeModal ≠
      some "project-modal-a" := by
  decide

/-- Claim C1 (amended): after every open operation the newly opened
panel is marked open and `activeModal` points to it, but a previously
open panel stays marked open — `openModal` neither closes it first nor
rejects the call, so the single-open invariant can be violated. -/
theorem openModal_keeps_previous_open (m : String) (s : ModalState) :
    (openModal m s).activeModal = some m ∧
    m ∈ (openModal m s).openPanels ∧
    (∀ p, p ∈ s.openPanels → p ∈ (openModal m s).openPanels) :=
  ⟨rfl, classAdd_self_mem m s.openPanels, fun _ hp => classAdd_mem_mono hp⟩

/- ==================== Claim C6 ======================================== -/

/-- Claim C6: closing the dialog right after `openModal m s` restores
focus to the element focused immediately before the open, un-marks the
panel (class and ARIA), re-enables page scrolling and clears the
currently-open reference; `closeCurrentModal` on a state with no open
panel is a no-op. -/
theorem closeModal_restores_focus (m : String) (s : ModalState) :
    (closeCurrentModal (openModal m s)).focus = s.focus ∧
    m ∉ (closeCurrentModal (openModal m s)).openPanels ∧
    m ∉ (closeCurrentModal (openModal m s)).ariaVisible ∧
    (closeCurrentModal (openModal m s)).overflowHidden = false ∧
    (closeCurrentModal (openModal m s)).activeModal = none ∧
    (s.activeModal = none → closeCurrentModal s = s) := by
  refine ⟨rfl, classRemove_not_mem m _, classRemove_not_mem m _, rfl, rfl,
    fun h => ?_⟩
  simp [closeCurrentModal, h]

/- ==================== Claim C3 ======================================== -/

/-- Claim C3: with the trap installed over the `n` focusable
descendants computed at installation time, a Tab or Shift+Tab issued
while focus is on descendant `i` always lands inside the dialog:
forward Tab from the last descendant is redirected to the first, and
Shift+Tab from the first is redirected to the last. -/
theorem trapFocus_stays (n i : Nat) (shift : Bool) (h : i < n) :
    trapStep n shift i ≠ none ∧
    (trapStep n shift i).getD 0 < n ∧
    (shift = true → i = 0 → trapStep n shift i = some (n - 1)) ∧
    (shift = false → i = n - 1 → trapStep n shift i = some 0) := by
  have hn : ¬n = 0 := by omega
  cases shift with
  | true =>
    by_cases h0 : i = 0
    · have ht : trapStep n true i = some (n - 1) := by
        simp [trapStep, handleFocusTrap, hn, h0]
      exact ⟨by simp [ht], by rw [ht]; simp [Option.getD]; omega,
        fun _ _ => ht, by simp⟩
    · have ht : trapStep n true i = some (i - 1) := by
        simp [trapStep, handleFocusTrap, browserTab, hn, h0]
      exact ⟨by simp [ht], by rw [ht]; simp [Option.getD]; omega,
        fun _ h0' => absurd h0' h0, by simp⟩
  | false =>
    by_cases hl : i = n - 1
    · have ht : trapStep n false i = some 0 := by
        simp [trapStep, handleFocusTrap, hn, hl]
      exact ⟨by simp [ht], by rw [ht]; simp [Option.getD]; omega,
        by simp, fun _ _ => ht⟩
    · have hlt : i + 1 < n := by omega
      have ht : trapStep n false i = some (i + 1) := by
        simp [trapStep, handleFocusTrap, browserTab, hn, hl, hlt]
      exact ⟨by simp [ht], by rw [ht]; simp [Option.getD]; omega,
        by simp, fun _ hl' => absurd hl' hl⟩

/-- Witness for claim C3: a forward Tab from the last of three
focusable descendants is redirected to the first, staying inside. -/
theorem trapFocus_stays_w :
    trapStep 3 false 2 = some 0 ∧ (trapStep 3 false 2).getD 0 < 3 :=
  ⟨(trapFocus_stays 3 2 false (by decide)).2.2.2 rfl rfl,
   (trapFocus_stays 3 2 false (by decide)).2.1⟩

/- ==================== Claim C8 ======================================== -/

theorem menuStep_consistent (s : MenuState) (e : MenuEvent)
    (h : menuConsistent s = true) :
    menuConsistent (menuStep s e) = true := by
  cases e with
  | toggleClick =>
    simp [menuConsistent] at h
    simp [menuStep, menuConsistent, h.1, h.2]
  | navLinkClick => simp [menuStep, menuConsistent]
  | outsideClick => simp [menuStep, menuConsistent]

theorem menuFold_consistent (evs : List MenuEvent) (s : MenuState)
    (h : menuConsistent s = true) :
    menuConsistent (evs.foldl menuStep s) = true := by
  induction evs generalizing s with
  | nil => exact h
  | cons e rest ih => exact ih _ (menuStep_consistent s e h)

theorem sidebarStep_consistent (s : SidebarState) (e : SidebarEvent)
    (h : sidebarConsistent s = true) :
    sidebarConsistent (sidebarStep s e) = true := by
  cases e with
  | toggleClick =>
    cases hs : s.sidebarActive <;> simp [sidebarStep, sidebarConsistent, hs]
  | docClick a b c =>
    simp only [sidebarStep]
    split
    · simp [sidebarConsistent]
    · exact h
  | navLinkClick a b =>
    simp only [sidebarStep]
    split
    · simp [sidebarConsistent]
    · exact h

theorem sidebarFold_consistent (evs : List SidebarEvent) (s : SidebarState)
    (h : sidebarConsistent s = true) :
    sidebarConsistent (evs.foldl sidebarStep s) = true := by
  induction evs generalizing s with
  | nil => exact h
  | cons e rest ih => exact ih _ (sidebarStep_consistent s e h)

/-- Claim C8: starting from the page-load state, after any sequence of
menu toggles, outside clicks and nav-link clicks — however rapid — the
open state, visual class, ARIA-expanded attribute and icon glyph stay
mutually consistent, in both script variants: in the backup controller
the hamburger's glyph class and `aria-expanded` always equal the menu's
open state, and in the `script_new` controller the icon shows the close
glyph exactly when the sidebar is open. -/
theorem menu_state_icon_aria_consistent (evs : List MenuEvent)
    (evs2 : List SidebarEvent) :
    menuConsistent (evs.foldl menuStep menuInit) = true ∧
    sidebarConsistent (evs2.foldl sidebarStep sidebarInit) = true :=
  ⟨menuFold_consistent evs menuInit rfl,
   sidebarFold_consistent evs2 sidebarInit rfl⟩

/- ==================== Claim C9 ======================================== -/

theorem revealStepEntry_rev_mono (s : RevealState) (e : String × Bool)
    {x : String} (h : x ∈ s.revealed) :
    x ∈ (revealStepEntry s e).revealed := by
  unfold revealStepEntry
  split
  · exact classAdd_mem_mono h
  · exact h

theorem revealStepEntry_obs_mono (s : RevealState) (e : String × Bool)
    {x : String} (h : x ∉ s.observed) :
    x ∉ (revealStepEntry s e).observed := by
  unfold revealStepEntry
  split
  · intro hc
    exact h (List.mem_of_mem_filter hc)
  · exact h

theorem revealStepEntry_removes (s : RevealState) (x : String) :
    x ∉ (revealStepEntry s (x, true)).observed := by
  simp [revealStepEntry, List.mem_filter]

theorem revealCallback_obs_mono (entries : List (String × Bool))
    (s : RevealState) {x : String} (h : x ∉ s.observed) :
    x ∉ (revealCallback s entries).observed := by
  induction entries generalizing s with
  | nil => exact h
  | cons e rest ih => exact ih _ (revealStepEntry_obs_mono s e h)

theorem revealCallback_rev_mono (entries : List (String × Bool))
    (s : RevealState) {x : String} (h : x ∈ s.revealed) :
    x ∈ (revealCallback s entries).revealed := by
  induction entries generalizing s with
  | nil => exact h
  | cons e rest ih => exact ih _ (revealStepEntry_rev_mono s e h)

theorem revealCallback_removes (entries : List (String × Bool))
    (s : RevealState) (x : String) (h : (x, true) ∈ entries) :
    x ∉ (revealCallback s entries).observed := by
  induction entries generalizing s with
  | nil => cases h
  | cons e rest ih =>
    rcases List.mem_cons.mp h with he | hrest
    · have hx : x ∉ (revealStepEntry s e).observed := by
        rw [← he]
        exact revealStepEntry_removes s x
      exact revealCallback_obs_mono rest _ hx
    · exact ih _ hrest

theorem revealBatches_rev_mono (batches : List (List (String × Bool)))
    (s : RevealState) {x : String} (h : x ∈ s.revealed) :
    x ∈ (batches.foldl revealCallback s).revealed := by
  induction batches generalizing s with
  | nil => exact h
  | cons b rest ih => exact ih _ (revealCallback_rev_mono b s h)

theorem revealBatches_obs_mono (batches : List (List (String × Bool)))
    (s : RevealState) {x : String} (h : x ∉ s.observed) :
    x ∉ (batches.foldl revealCallback s).observed := by
  induction batches generalizing s with
  | nil => exact h
  | cons b rest ih => exact ih _ (revealCallback_obs_mono b s h)

/-- Claim C9: the revealed visual state never reverts across any
further observer callbacks; an entry whose visible fraction crosses the
threshold has its target immediately removed from the observed set; and
an element out of the observed set stays out across all further
callbacks, so no further transitions occur. -/
theorem reveal_state_one_shot (s : RevealState) (x : String)
    (batches : List (List (String × Bool))) :
    (x ∈ s.revealed → x ∈ (batches.foldl revealCallback s).revealed) ∧
    (∀ entries, (x, true) ∈ entries →
      x ∉ (revealCallback s entries).observed) ∧
    (x ∉ s.observed → x ∉ (batches.foldl revealCallback s).observed) :=
  ⟨fun h => revealBatches_rev_mono batches s h,
   fun entries h => revealCallback_removes entries s x h,
   fun h => revealBatches_obs_mono batches s h⟩

/- ==================== Claim C2 ======================================== -/

theorem currentFold_cases (sections : List PageSection) (y vh : Int)
    (init : String) :
    List.foldl
        (fun acc s => if sectionContainsRef y vh s then s.id else acc)
        init sections = init ∨
    ∃ s, s ∈ sections ∧ sectionContainsRef y vh s = true ∧
      List.foldl
        (fun acc s => if sectionContainsRef y vh s then s.id else acc)
        init sections = s.id := by
  induction sections generalizing init with
  | nil => exact Or.inl rfl
  | cons a rest ihd =>
    rcases ihd (if sectionContainsRef y vh a then a.id else init) with
      heq | ⟨s, hs, hc, heq⟩
    · by_cases hca : sectionContainsRef y vh a = true
      · refine Or.inr ⟨a, List.mem_cons_self _ _, hca, ?_⟩
        rw [List.foldl_cons, heq]
        simp [hca]
      · refine Or.inl ?_
        rw [List.foldl_cons, heq]
        simp [hca]
    · refine Or.inr ⟨s, List.mem_cons_of_mem _ hs, hc, ?_⟩
      rw [List.foldl_cons]
      exact heq

theorem currentFold_empty (sections : List PageSection) (y vh : Int)
    (init : String)
    (hall : ∀ s ∈ sections, sectionContainsRef y vh s = false) :
    List.foldl
        (fun acc s => if sectionContainsRef y vh s then s.id else acc)
        init sections = init := by
  induction sections generalizing init with
  | nil => rfl
  | cons a rest ihd =>
    rw [List.foldl_cons]
    have ha := hall a (List.mem_cons_self _ _)
    simp only [ha, Bool.false_eq_true, if_false]
    exact ihd init fun s hs => hall s (List.mem_cons_of_mem _ hs)

theorem nodup_all_eq_length_le_one {l : List String} (hn : l.Nodup)
    (v : String) (hall : ∀ a ∈ l, a = v) : l.length ≤ 1 := by
  match l, hn, hall with
  | [], _, _ => simp
  | [a], _, _ => simp
  | a :: b :: t, hn, hall =>
    exfalso
    have hab : a = b := (hall a (by simp)).trans (hall b (by simp)).symm
    rw [List.nodup_cons] at hn
    exact hn.1 (by rw [hab]; exact List.mem_cons_self b t)

/-- Claim C2: after the scroll-sync recompute, at most one navigation
entry is active (the nav items' link targets being pairwise distinct
and none of them the bare `#`); an active entry's target matches the
identifier of a section whose vertical extent contains the reference
point `scrollY + innerHeight/3`; and when no section contains the
reference point, no entry is active. -/
theorem updateActiveNav_spec (sections : List PageSection)
    (navItems : List String) (y vh : Int)
    (hnd : navItems.Nodup) (hhash : "#" ∉ navItems) :
    (updateActiveNavOnScroll sections navItems y vh).length ≤ 1 ∧
    (∀ a ∈ updateActiveNavOnScroll sections navItems y vh,
      ∃ s, s ∈ sections ∧ sectionContainsRef y vh s = true ∧
        a = "#" ++ s.id) ∧
    ((∀ s ∈ sections, sectionContainsRef y vh s = false) →
      updateActiveNavOnScroll sections navItems y vh = []) := by
  have hfilter : updateActiveNavOnScroll sections navItems y vh =
      List.filter
        (fun href => href == "#" ++ currentSectionId sections y vh)
        navItems := rfl
  refine ⟨?_, ?_, ?_⟩
  · rw [hfilter]
    refine nodup_all_eq_length_le_one (hnd.filter _)
      ("#" ++ currentSectionId sections y vh) (fun a ha => ?_)
    have hp := List.of_mem_filter ha
    exact eq_of_beq hp
  · intro a ha
    rw [hfilter] at ha
    have hmem : a ∈ navItems := List.mem_of_mem_filter ha
    have hp := List.of_mem_filter ha
    have haeq : a = "#" ++ currentSectionId sections y vh := eq_of_beq hp
    rcases currentFold_cases sections y vh "" with hc | ⟨s, hs, hcon, hceq⟩
    · exfalso
      have hcz : currentSectionId sections y vh = "" := hc
      rw [haeq, hcz] at hmem
      exact hhash hmem
    · refine ⟨s, hs, hcon, ?_⟩
      rw [haeq]
      have : currentSectionId sections y vh = s.id := hceq
      rw [this]
  · intro hall
    have hcz : currentSectionId sections y vh = "" :=
      currentFold_empty sections y vh "" hall
    unfold updateActiveNavOnScroll
    rw [hcz]
    apply List.filter_eq_nil_iff.mpr
    intro a hamem hbeq
    have : a = "#" ++ "" := eq_of_beq hbeq
    rw [this] at hamem
    exact hhash hamem

/-- Witness for claim C2 on a concrete two-section page with the
reference point inside the first section. -/
theorem updateActiveNav_spec_w :
    (updateActiveNavOnScroll
        [{ id := "home", offsetTop := 0, offsetHeight := 500 },
         { id := "about", offsetTop := 500, offsetHeight := 400 }]
        ["#home", "#about"] 100 900).length ≤ 1 ∧
    updateActiveNavOnScroll
        [{ id := "home", offsetTop := 0, offsetHeight := 500 },
         { id := "about", offsetTop := 500, offsetHeight := 400 }]
        ["#home", "#about"] 100 900 = ["#home"] :=
  ⟨(updateActiveNav_spec
      [{ id := "home", offsetTop := 0, offsetHeight := 500 },
       { id := "about", offsetTop := 500, offsetHeight := 400 }]
      ["#home", "#about"] 100 900 (by decide) (by decide)).1,
   by decide⟩

/- ==================== Claims C4 and C5 ================================ -/

theorem initContactFormSubmit_eq (n e m : String) :
    initContactFormSubmit n e m =
      if (!(jsTrim n == "" || decide ((jsTrim n).length < 2)) &&
          !(jsTrim e == "" || !emailTest (jsTrim e).data) &&
          !(jsTrim m == "" || decide ((jsTrim m).length < 10)))
      then
        { prevented := true
          alert := some
            ("Thank you for your message! Your email client should open shortly.",
              AlertKind.success)
          mailto := some (mailtoLink (jsTrim n) (jsTrim e) (jsTrim m))
          didReset := true }
      else
        { prevented := true
          alert := some
            ((if (jsTrim m == "" || decide ((jsTrim m).length < 10)) then
                "Please enter a message (at least 10 characters)."
              else if (jsTrim e == "" || !emailTest (jsTrim e).data) then
                "Please enter a valid email address."
              else
                "Please enter a valid name (at least 2 characters)."),
              AlertKind.error)
          mailto := none
          didReset := false } := rfl

theorem nameCheck_iff (s : String) :
    (s == "" || decide (s.length < 2)) = false ↔ 2 ≤ s.length := by
  constructor
  · intro h
    rw [Bool.or_eq_false_iff] at h
    have h2 := of_decide_eq_false h.2
    omega
  · intro h
    rw [Bool.or_eq_false_iff]
    constructor
    · cases hb : s == ""
      · rfl
      · exfalso
        have hs : s = "" := eq_of_beq hb
        subst hs
        exact absurd h (by decide)
    · exact decide_eq_false (by omega)

theorem messageCheck_iff (s : String) :
    (s == "" || decide (s.length < 10)) = false ↔ 10 ≤ s.length := by
  constructor
  · intro h
    rw [Bool.or_eq_false_iff] at h
    have h2 := of_decide_eq_false h.2
    omega
  · intro h
    rw [Bool.or_eq_false_iff]
    constructor
    · cases hb : s == ""
      · rfl
      · exfalso
        have hs : s = "" := eq_of_beq hb
        subst hs
        exact absurd h (by decide)
    · exact decide_eq_false (by omega)

theorem emailCheck_iff (s : String) :
    (s == "" || !emailTest s.data) = false ↔ emailTest s.data = true := by
  constructor
  · intro h
    rw [Bool.or_eq_false_iff] at h
    have h2 := h.2
    cases he2 : emailTest s.data
    · rw [he2] at h2
      simp at h2
    · rfl
  · intro h
    rw [Bool.or_eq_false_iff]
    constructor
    · cases hb : s == ""
      · rfl
      · exfalso
        have hs : s = "" := eq_of_beq hb
        subst hs
        exact absurd h (by decide)
    · rw [h]
      rfl

theorem contactForm_validity_cond (n e m : String) :
    ((!(jsTrim n == "" || decide ((jsTrim n).length < 2)) &&
      !(jsTrim e == "" || !emailTest (jsTrim e).data) &&
      !(jsTrim m == "" || decide ((jsTrim m).length < 10))) = true) ↔
    (2 ≤ (jsTrim n).length ∧ emailTest (jsTrim e).data = true ∧
      10 ≤ (jsTrim m).length) := by
  simp only [Bool.and_eq_true, Bool.not_eq_true']
  rw [and_assoc]
  exact and_congr (nameCheck_iff _)
    (and_congr (emailCheck_iff _) (messageCheck_iff _))

theorem contactFormNew_accepts_iff (n e m : String) :
    (contactFormNewSubmit n e m).1 = false ↔
    (jsTrim n ≠ "" ∧ jsTrim e ≠ "" ∧ jsTrim m ≠ "" ∧
      emailTest (jsTrim e).data = true) := by
  simp only [contactFormNewSubmit]
  by_cases hn : jsTrim n = ""
  · simp [hn]
  · by_cases he : jsTrim e = ""
    · simp [hn, he]
    · by_cases hm : jsTrim m = ""
      · simp [hn, he, hm]
      · cases ht : emailTest (jsTrim e).data
        · simp [hn, he, hm, ht]
        · simp [hn, he, hm, ht]

/-- Claim C4 counterexample: the submission with name `J`,
email `jane@example.com` and message
`Hello there, loved your work!` has all three fields present and
non-whitespace and a well-shaped email, yet the backup controller
rejects it with the name-length error and builds no mail link. -/
theorem contactForm_rejects_short_name_cex :
    (initContactFormSubmit "J" "jane@example.com"
        "Hello there, loved your work!").mailto = none ∧
    (initContactFormSubmit "J" "jane@example.com"
        "Hello there, loved your work!").didReset = false ∧
    (initContactFormSubmit "J" "jane@example.com"
        "Hello there, loved your work!").alert =
      some ("Please enter a valid name (at least 2 characters).",
        AlertKind.error) ∧
    jsTrim "J" ≠ "" ∧
    jsTrim "Hello there, loved your work!" ≠ "" ∧
    emailTest (jsTrim "jane@example.com").data = true := by
  decide

/-- Claim C4 (amended): in the backup controller every submission is
prevented from navigating; a mail link is built exactly when the
trimmed name has at least 2 characters, the trimmed email matches the
regex, and the trimmed message has at least 10 characters; any rejected
submission keeps the entered values (no reset) and shows an error
notice.  The `script_new` controller accepts exactly the submissions
whose three trimmed fields are nonempty and whose email matches the
regex. -/
theorem contactForm_validation (n e m : String) :
    (initContactFormSubmit n e m).prevented = true ∧
    ((initContactFormSubmit n e m).mailto ≠ none ↔
      (2 ≤ (jsTrim n).length ∧ emailTest (jsTrim e).data = true ∧
        10 ≤ (jsTrim m).length)) ∧
    ((initContactFormSubmit n e m).mailto = none →
      (initContactFormSubmit n e m).didReset = false ∧
      ∃ msg, (initContactFormSubmit n e m).alert =
        some (msg, AlertKind.error)) ∧
    ((contactFormNewSubmit n e m).1 = false ↔
      (jsTrim n ≠ "" ∧ jsTrim e ≠ "" ∧ jsTrim m ≠ "" ∧
        emailTest (jsTrim e).data = true)) := by
  refine ⟨?_, ?_, ?_, contactFormNew_accepts_iff n e m⟩
  · rw [initContactFormSubmit_eq]
    split <;> rfl
  · rw [initContactFormSubmit_eq]
    split
    case isTrue h =>
      exact iff_of_true (by simp) ((contactForm_validity_cond n e m).mp h)
    case isFalse h =>
      refine iff_of_false (by simp) ?_
      intro hc
      exact h ((contactForm_validity_cond n e m).mpr hc)
  · rw [initContactFormSubmit_eq]
    split
    case isTrue h =>
      intro hc
      simp at hc
    case isFalse h =>
      intro _
      exact ⟨rfl, ⟨_, rfl⟩⟩

theorem strData_append (a b : String) : (a ++ b).data = a.data ++ b.data := by
  cases a
  cases b
  rfl

theorem strData_mk (l : List Char) : (String.mk l).data = l := rfl

theorem encodeList_append (l1 l2 : List Char) :
    encodeList (l1 ++ l2) = encodeList l1 ++ encodeList l2 := by
  induction l1 with
  | nil => rfl
  | cons c cs ih =>
    rw [List.cons_append, encodeList, encodeList, ih, List.append_assoc]

theorem mailtoLink_parts (n e m : String) :
    (mailtoLink n e m).data =
      "mailto:mueezmejbah284@gmail.com?subject=".data ++
      (encodeList "Portfolio Contact from ".data ++ encodeList n.data) ++
      "&body=".data ++
      (encodeList "Name: ".data ++ encodeList n.data ++
        encodeList "\nEmail: ".data ++ encodeList e.data ++
        encodeList "\n\nMessage:\n".data ++ encodeList m.data) := by
  simp [mailtoLink, encodeURIComponent, strData_mk, strData_append,
    encodeList_append, encodeList, List.append_assoc]

/-- Claim C5: every submission that passes the backup controller's
validation produces exactly the mailto deep link built from the trimmed
fields, in which the percent-encoded name, email and message each occur
verbatim (the name in the subject part, all three in the body), shows
the transient success notice, and resets the form. -/
theorem contactForm_mailto_success (n e m : String)
    (hn : 2 ≤ (jsTrim n).length)
    (he : emailTest (jsTrim e).data = true)
    (hm : 10 ≤ (jsTrim m).length) :
    (initContactFormSubmit n e m).mailto =
      some (mailtoLink (jsTrim n) (jsTrim e) (jsTrim m)) ∧
    (∃ p q, (mailtoLink (jsTrim n) (jsTrim e) (jsTrim m)).data =
      p ++ encodeList (jsTrim n).data ++ q) ∧
    (∃ p q, (mailtoLink (jsTrim n) (jsTrim e) (jsTrim m)).data =
      p ++ encodeList (jsTrim e).data ++ q) ∧
    (∃ p q, (mailtoLink (jsTrim n) (jsTrim e) (jsTrim m)).data =
      p ++ encodeList (jsTrim m).data ++ q) ∧
    (initContactFormSubmit n e m).alert =
      some ("Thank you for your message! Your email client should open shortly.",
        AlertKind.success) ∧
    (initContactFormSubmit n e m).didReset = true := by
  have hv := (contactForm_validity_cond n e m).mpr ⟨hn, he, hm⟩
  refine ⟨?_, ?_, ?_, ?_, ?_, ?_⟩
  · rw [initContactFormSubmit_eq, if_pos hv]
  · refine ⟨"mailto:mueezmejbah284@gmail.com?subject=".data ++
      encodeList "Portfolio Contact from ".data,
      "&body=".data ++
      (encodeList "Name: ".data ++ encodeList (jsTrim n).data ++
        encodeList "\nEmail: ".data ++ encodeList (jsTrim e).data ++
        encodeList "\n\nMessage:\n".data ++ encodeList (jsTrim m).data), ?_⟩
    rw [mailtoLink_parts]
    simp [encodeList, List.append_assoc]
  · refine ⟨"mailto:mueezmejbah284@gmail.com?subject=".data ++
      encodeList "Portfolio Contact from ".data ++
      encodeList (jsTrim n).data ++ "&body=".data ++
      encodeList "Name: ".data ++ encodeList (jsTrim n).data ++
      encodeList "\nEmail: ".data,
      encodeList "\n\nMessage:\n".data ++ encodeList (jsTrim m).data, ?_⟩
    rw [mailtoLink_parts]
    simp [encodeList, List.append_assoc]
  · refine ⟨"mailto:mueezmejbah284@gmail.com?subject=".data ++
      encodeList "Portfolio Contact from ".data ++
      encodeList (jsTrim n).data ++ "&body=".data ++
      encodeList "Name: ".data ++ encodeList (jsTrim n).data ++
      encodeList "\nEmail: ".data ++ encodeList (jsTrim e).data ++
      encodeList "\n\nMessage:\n".data, [], ?_⟩
    rw [mailtoLink_parts]
    simp [encodeList, List.append_assoc]
  · rw [initContactFormSubmit_eq, if_pos hv]
  · rw [initContactFormSubmit_eq, if_pos hv]

/-- Witness for claim C5 on the spec's example submission. -/
theorem contactForm_mailto_success_w :
    (initContactFormSubmit "Jane" "jane@example.com"
        "Hello there, loved your work!").mailto =
      some (mailtoLink (jsTrim "Jane") (jsTrim "jane@example.com")
        (jsTrim "Hello there, loved your work!")) ∧
    (initContactFormSubmit "Jane" "jane@example.com"
        "Hello there, loved your work!").didReset = true :=
  ⟨(contactForm_mailto_success "Jane" "jane@example.com"
      "Hello there, loved your work!" (by decide) (by decide) (by decide)).1,
   (contactForm_mailto_success "Jane" "jane@example.com"
      "Hello there, loved your work!" (by decide) (by decide) (by decide)).2.2.2.2.2⟩
